import Mathlib

/-!
Verification of the deterministic cohort-funnel and guarded-SQL-execution
subsystem of the rwd-ie-optimizer repository.

The embedding models, from the Python sources:
  - src/src/tools/sql_executor.py      (run_sql)
  - src/src/services/funnel_service.py (FunnelService.calculate_whatif,
    FunnelService.calculate_funnel, _build_criterion_sql, _build_exclusion_sql)
  - src/src/tools/concept_search.py    (search_concepts)

Modelling conventions:
  - The sqlite database is an external oracle: an environment mapping each SQL
    string to a DbOutcome (rows on success, or one of the three exception
    classes the Python code catches: sqlite3.OperationalError, other
    sqlite3.Error, any other Exception).
  - Python floats are modelled as rationals; wall-clock timing is omitted
    (no claim concerns timing_ms).
  - Functions that can raise an uncaught exception in Python (IndexError,
    KeyError, ZeroDivisionError) return Option, with none for the exception.
  - SQL literal strings are normalized: the quote characters around LIKE
    patterns and inner whitespace of triple-quoted strings are dropped.
    The funnel only ever compares these strings for equality against the
    environment, so the exact text is immaterial as long as distinct Python
    strings stay distinct here.
-/

/-- Python substring test on lists of characters: the needle occurs
contiguously somewhere in the haystack. -/
def charsContain (needle : List Char) : List Char → Bool
  | [] => false
  | c :: t => needle.isPrefixOf (c :: t) || charsContain needle t

/-- Python `needle in hay` for strings (with the convention that the empty
needle is contained in every string, as in Python). -/
def strContains (hay needle : String) : Bool :=
  needle.toList.isEmpty || charsContain needle.toList hay.toList

/-- Python str.upper, restricted to the ASCII mapping (all strings the code
upper-cases are ASCII SQL text). -/
def pyUpper (s : String) : String := String.mk (s.toList.map Char.toUpper)

/-- Python str.lower, restricted to the ASCII mapping. -/
def pyLower (s : String) : String := String.mk (s.toList.map Char.toLower)

/-- Outcome of handing a SQL string to the sqlite driver: either a result set
(column names plus rows of integer values), or one of the three exception
classes caught in run_sql. -/
inductive DbOutcome where
  | success (cols : List String) (rows : List (List Int))
  | operationalError (msg : String)
  | databaseError (msg : String)
  | otherError (msg : String)
deriving DecidableEq

/-- A preview row: ordered mapping from column name to value, as built by
run_sql from the cursor description. -/
abbrev Row := List (String × Int)

/-- Structured result of run_sql: the ok=True shape (execution_summary.n,
preview_rows, warnings) or the ok=False shape (error, error_type). -/
inductive RunResult where
  | okRes (n : Nat) (preview_rows : List Row) (warnings : List String)
  | errRes (error : String) (error_type : String)
deriving DecidableEq

def RunResult.isOk : RunResult → Bool
  | .okRes .. => true
  | .errRes .. => false

def RunResult.errorType : RunResult → Option String
  | .okRes .. => none
  | .errRes _ t => some t

/-- The fixed denylist checked by run_sql before executing anything. -/
def destructive_keywords : List String :=
  ["DROP", "DELETE", "TRUNCATE", "UPDATE", "INSERT", "ALTER"]

/-- Whether the upper-cased SQL text contains some denylisted keyword. -/
def containsDestructive (sql : String) : Bool :=
  destructive_keywords.any (fun k => strContains (pyUpper sql) k)

/-- row_dict construction: pair each column name with the row value at the
same position. -/
def rowToDict (cols : List String) (row : List Int) : Row := cols.zip row

/-- Error classification of a sqlite3.OperationalError message, by substring
matching on the lower-cased text. -/
def classifyOperational (msg : String) : String :=
  let m := pyLower msg
  if strContains m "syntax error" then "syntax_error"
  else if strContains m "no such table" || strContains m "no such column" then "schema_error"
  else "operational_error"

/-- run_sql from src/src/tools/sql_executor.py.  The denylist check happens
first, before the database is consulted; on success the response shape
depends on mode; the three except branches map the exception classes to
error_type strings. -/
def run_sql (sql : String) (mode : String) (db : DbOutcome) : RunResult :=
  match destructive_keywords.find? (fun k => strContains (pyUpper sql) k) with
  | some k => .errRes ("Destructive operation " ++ k ++ " not allowed") "safety_violation"
  | none =>
    match db with
    | .success cols rows =>
      if mode = "count" then
        .okRes rows.length [] []
      else if mode = "preview" then
        .okRes rows.length ((rows.take 10).map (rowToDict cols))
          (if rows.length > 10 then
            ["Showing 10 of " ++ toString rows.length ++ " rows"] else [])
      else if mode = "full" then
        .okRes rows.length (rows.map (rowToDict cols))
          (if rows.length > 1000 then
            ["Large result set: " ++ toString rows.length ++ " rows returned"] else [])
      else
        .errRes ("Invalid mode " ++ mode ++ ". Use count, preview, or full") "invalid_mode"
    | .operationalError msg => .errRes msg (classifyOperational msg)
    | .databaseError msg => .errRes msg "database_error"
    | .otherError msg => .errRes msg "unknown_error"

theorem find_destructive_none {sql : String} (h : containsDestructive sql = false) :
    destructive_keywords.find? (fun k => strContains (pyUpper sql) k) = none := by
  rw [List.find?_eq_none]
  intro x hx hc
  have h2 : containsDestructive sql = true := by
    simp only [containsDestructive, List.any_eq_true]
    exact ⟨x, hx, by simpa using hc⟩
  rw [h2] at h
  cases h

/-- C1: every SQL string whose upper-cased text contains a denylisted keyword
(DROP, DELETE, TRUNCATE, UPDATE, INSERT, ALTER — anywhere, including inside a
quoted literal) makes run_sql return ok=false with the safety-violation
error_type, and the result is the same for every database outcome, i.e. the
query is rejected before any execution takes place. -/
theorem run_sql_safety_violation (sql mode : String) (db : DbOutcome)
    (h : containsDestructive sql = true) :
    (run_sql sql mode db).isOk = false ∧
    (run_sql sql mode db).errorType = some "safety_violation" ∧
    ∀ db2 : DbOutcome, run_sql sql mode db2 = run_sql sql mode db := by
  have h2 : (destructive_keywords.find? (fun k => strContains (pyUpper sql) k)).isSome := by
    rw [List.find?_isSome]
    simpa [containsDestructive, List.any_eq_true] using h
  obtain ⟨k, hk⟩ := Option.isSome_iff_exists.mp h2
  refine ⟨?_, ?_, ?_⟩
  · simp [run_sql, hk, RunResult.isOk]
  · simp [run_sql, hk, RunResult.errorType]
  · intro db2
    simp [run_sql, hk]

theorem run_sql_safety_violation_witness :
    (run_sql "SELECT * FROM patients WHERE name = UPDATE" "count"
      (.success ["x"] [[1]])).errorType = some "safety_violation" :=
  (run_sql_safety_violation "SELECT * FROM patients WHERE name = UPDATE" "count"
    (.success ["x"] [[1]]) (by decide)).2.1

/-- C3 counterexample: a sqlite driver error that is not an OperationalError
(for example a corrupt database file, caught by the bare sqlite3.Error branch)
is classified "database_error", an error_type outside the four kinds the
claim allows. -/
theorem run_sql_taxonomy_counterexample :
    (run_sql "SELECT 1" "count"
        (.databaseError "file is encrypted or is not a database")).errorType
      = some "database_error" ∧
    "database_error" ∉
      (["syntax_error", "schema_error", "operational_error", "unknown_error"] :
        List String) := by
  refine ⟨rfl, by decide⟩

/-- C3 amended: run_sql never raises across its boundary (every outcome maps
to a structured result) and every execution failure yields ok=false with an
error_type drawn from a five-kind taxonomy determined by the exception class
and substring matching on the lower-cased message: syntax_error when an
OperationalError message contains "syntax error", schema_error when it
contains "no such table" or "no such column", operational_error for other
OperationalErrors, database_error for other sqlite driver errors, and
unknown_error for any other exception. -/
theorem run_sql_error_classification (sql mode msg : String)
    (hsafe : containsDestructive sql = false) :
    (run_sql sql mode (.operationalError msg) =
      .errRes msg
        (if strContains (pyLower msg) "syntax error" then "syntax_error"
         else if strContains (pyLower msg) "no such table" ||
                 strContains (pyLower msg) "no such column" then "schema_error"
         else "operational_error")) ∧
    run_sql sql mode (.databaseError msg) = .errRes msg "database_error" ∧
    run_sql sql mode (.otherError msg) = .errRes msg "unknown_error" ∧
    ∀ m t : String, (RunResult.errRes m t).isOk = false := by
  have hf := find_destructive_none hsafe
  refine ⟨?_, ?_, ?_, fun m t => rfl⟩ <;>
    simp [run_sql, hf, classifyOperational]

theorem run_sql_error_classification_witness :
    run_sql "SELECT * FORM patients" "count"
        (.operationalError "near FORM: syntax error") =
      .errRes "near FORM: syntax error"
        (if strContains (pyLower "near FORM: syntax error") "syntax error"
          then "syntax_error"
         else if strContains (pyLower "near FORM: syntax error") "no such table" ||
                 strContains (pyLower "near FORM: syntax error") "no such column"
          then "schema_error"
         else "operational_error") :=
  (run_sql_error_classification "SELECT * FORM patients" "count"
    "near FORM: syntax error" (by decide)).1

/-- C4: for every successfully executed query: mode "count" returns zero
preview rows while recording the full row count; mode "preview" returns the
first at-most-10 converted rows, with a truncation warning present exactly
when the full result has more than 10 rows; mode "full" returns all rows, so
the reported row count equals the length of the returned row list, with a
warning exactly when the row count exceeds 1000. -/
theorem run_sql_mode_shapes (sql mode : String) (cols : List String)
    (rows : List (List Int)) (hsafe : containsDestructive sql = false) :
    (mode = "count" →
      run_sql sql mode (.success cols rows) = .okRes rows.length [] []) ∧
    (mode = "preview" → ∃ pr w,
      run_sql sql mode (.success cols rows) = .okRes rows.length pr w ∧
      pr = (rows.take 10).map (rowToDict cols) ∧ pr.length ≤ 10 ∧
      (w ≠ [] ↔ 10 < rows.length)) ∧
    (mode = "full" → ∃ pr w,
      run_sql sql mode (.success cols rows) = .okRes rows.length pr w ∧
      pr = rows.map (rowToDict cols) ∧ pr.length = rows.length ∧
      (w ≠ [] ↔ 1000 < rows.length)) := by
  have hf := find_destructive_none hsafe
  refine ⟨?_, ?_, ?_⟩
  · intro hm; subst hm
    simp [run_sql, hf]
  · intro hm; subst hm
    refine ⟨(rows.take 10).map (rowToDict cols),
      (if 10 < rows.length then
        ["Showing 10 of " ++ toString rows.length ++ " rows"] else []),
      by simp [run_sql, hf], rfl, ?_, ?_⟩
    · simp [List.length_take]
    · split_ifs with h <;> simp [h]
  · intro hm; subst hm
    refine ⟨rows.map (rowToDict cols),
      (if 1000 < rows.length then
        ["Large result set: " ++ toString rows.length ++ " rows returned"] else []),
      by simp [run_sql, hf], rfl, by simp, ?_⟩
    split_ifs with h <;> simp [h]

theorem run_sql_mode_shapes_witness :
    run_sql "SELECT age FROM patients" "count" (.success ["age"] [[30], [40]])
      = .okRes 2 [] [] :=
  (run_sql_mode_shapes "SELECT age FROM patients" "count" ["age"] [[30], [40]]
    (by decide)).1 rfl

/-- The database oracle seen by the funnel service: what the sqlite driver
does for each SQL string handed to run_sql. -/
abbrev Env := String → DbOutcome

/-- A structured criterion as consumed read-only by the funnel service. -/
structure Criterion where
  id : String
  domain : String
  concept : String
  description : String
deriving DecidableEq

/-- The criteria document: inclusion and exclusion predicate lists. -/
structure CriteriaDsl where
  inclusion : List Criterion
  exclusion : List Criterion
deriving DecidableEq

/-- One emitted what-if funnel step. -/
structure FunnelStep where
  id : String
  name : String
  type : String
  count : Int
  percentage : ℚ
  drop_count : Int
  drop_pct : ℚ
deriving DecidableEq

/-- Result shape of calculate_whatif. -/
structure WhatIfResult where
  base_count : Int
  final_count : Int
  steps : List FunnelStep
deriving DecidableEq

def base_population_sql : String := "SELECT COUNT(*) as cnt FROM patients"

def age_filter_sql : String :=
  "SELECT COUNT(*) as cnt FROM patients WHERE age BETWEEN 18 AND 75"

def diabetes_sql : String :=
  "SELECT COUNT(DISTINCT patient_id) as cnt FROM claims WHERE primary_diagnosis_code LIKE E11% OR secondary_diagnosis_code LIKE E11% OR tertiary_diagnosis_code LIKE E11%"

def metformin_sql : String :=
  "SELECT COUNT(DISTINCT patient_id) as cnt FROM claims WHERE drug_name LIKE %Metformin%"

def heart_failure_sql : String :=
  "SELECT COUNT(DISTINCT patient_id) as cnt FROM claims WHERE primary_diagnosis_code LIKE I50% OR secondary_diagnosis_code LIKE I50% OR tertiary_diagnosis_code LIKE I50%"

def cancer_sql : String :=
  "SELECT COUNT(DISTINCT patient_id) as cnt FROM claims WHERE primary_diagnosis_code LIKE C% OR secondary_diagnosis_code LIKE C% OR tertiary_diagnosis_code LIKE C%"

/-- The diagnosis count query hard-coded inside calculate_funnel (it checks
only the primary diagnosis column, unlike the what-if diabetes query). -/
def funnel_dx_sql : String :=
  "SELECT COUNT(DISTINCT patient_id) as cnt FROM claims WHERE primary_diagnosis_code LIKE E11%"

/-- FunnelService._build_criterion_sql: keyword dispatch for one inclusion
criterion, first match wins, default is a constant query returning the base
count. -/
def build_criterion_sql (c : Criterion) (base_count : Int) : String :=
  let domain := pyLower c.domain
  let concept := pyLower c.concept
  if domain = "demographic" || strContains concept "age" then
    age_filter_sql
  else if domain = "diagnosis" || strContains concept "diabetes" ||
      strContains concept "type 2" then
    diabetes_sql
  else if domain = "drug" || strContains concept "metformin" then
    metformin_sql
  else
    "SELECT " ++ toString base_count ++ " as cnt"

/-- FunnelService._build_exclusion_sql: keyword dispatch for one exclusion
criterion (the current_count argument of the Python method is unused, as in
the source).  Default is a constant query excluding nobody. -/
def build_exclusion_sql (c : Criterion) (_current_count : Int) : String :=
  let concept := pyLower c.concept
  if strContains concept "heart failure" || strContains concept "heart" then
    heart_failure_sql
  else if strContains concept "cancer" then
    cancer_sql
  else
    "SELECT 0 as cnt"

/-- Python dict lookup row[key] as used on preview rows; none models a
KeyError.  (Preview rows are built by zipping column names with values, so
with duplicate column names this returns the first occurrence where Python
keeps the last; the funnel only reads the single cnt column.) -/
def lookupKey (r : Row) (k : String) : Option Int :=
  (r.find? (fun p => p.1 = k)).map (fun p => p.2)

/-- base_count acquisition shared by calculate_whatif and calculate_funnel:
run the base population query in preview mode; on ok=false fall back to 500,
on ok=true index preview_rows[0]["cnt"] with no emptiness check (none models
the IndexError/KeyError). -/
def whatifBaseCount (env : Env) : Option Int :=
  match run_sql base_population_sql "preview" (env base_population_sql) with
  | .errRes _ _ => some 500
  | .okRes _ rows _ => rows.head?.bind (fun r => lookupKey r "cnt")

/-- The inclusion step record pushed by calculate_whatif. -/
def mkInclusionStep (base_count current_count new_count : Int)
    (c : Criterion) : FunnelStep :=
  { id := c.id
    name := c.description
    type := "inclusion"
    count := new_count
    percentage :=
      if base_count > 0 then (new_count : ℚ) / (base_count : ℚ) * 100 else 0
    drop_count := current_count - new_count
    drop_pct :=
      if current_count > 0 then
        ((current_count - new_count : Int) : ℚ) / (current_count : ℚ) * 100
      else 0 }

/-- The exclusion step record pushed by calculate_whatif: the emitted count is
current_count minus the excluded count returned by the exclusion query. -/
def mkExclusionStep (base_count current_count excluded_count : Int)
    (c : Criterion) : FunnelStep :=
  { id := c.id
    name := "Exclude: " ++ c.description
    type := "exclusion"
    count := current_count - excluded_count
    percentage :=
      if base_count > 0 then
        ((current_count - excluded_count : Int) : ℚ) / (base_count : ℚ) * 100
      else 0
    drop_count := excluded_count
    drop_pct :=
      if current_count > 0 then
        (excluded_count : ℚ) / (current_count : ℚ) * 100
      else 0 }

/-- The inclusion loop of calculate_whatif.  A criterion whose id is not
enabled is skipped; a query that fails or returns no preview rows is silently
skipped (guard: result ok and preview_rows non-empty); a missing cnt key is
an uncaught KeyError (none).  Returns the final running count and the emitted
steps in order. -/
def runInclusions (env : Env) (enabled : List String) (base_count : Int) :
    Int → List Criterion → Option (Int × List FunnelStep)
  | current, [] => some (current, [])
  | current, c :: rest =>
    if enabled.contains c.id then
      match run_sql (build_criterion_sql c base_count) "preview"
          (env (build_criterion_sql c base_count)) with
      | .okRes _ rows _ =>
        match rows.head? with
        | some row =>
          match lookupKey row "cnt" with
          | some new_count =>
            match runInclusions env enabled base_count new_count rest with
            | some (fc, steps) =>
              some (fc, mkInclusionStep base_count current new_count c :: steps)
            | none => none
          | none => none
        | none => runInclusions env enabled base_count current rest
      | .errRes _ _ => runInclusions env enabled base_count current rest
    else runInclusions env enabled base_count current rest

/-- The exclusion loop of calculate_whatif, same skipping discipline; the new
running count is current minus the excluded count. -/
def runExclusions (env : Env) (enabled : List String) (base_count : Int) :
    Int → List Criterion → Option (Int × List FunnelStep)
  | current, [] => some (current, [])
  | current, c :: rest =>
    if enabled.contains c.id then
      match run_sql (build_exclusion_sql c current) "preview"
          (env (build_exclusion_sql c current)) with
      | .okRes _ rows _ =>
        match rows.head? with
        | some row =>
          match lookupKey row "cnt" with
          | some excluded_count =>
            match runExclusions env enabled base_count
                (current - excluded_count) rest with
            | some (fc, steps) =>
              some (fc, mkExclusionStep base_count current excluded_count c :: steps)
            | none => none
          | none => none
        | none => runExclusions env enabled base_count current rest
      | .errRes _ _ => runExclusions env enabled base_count current rest
    else runExclusions env enabled base_count current rest

/-- calculate_whatif after the base count has been obtained. -/
def whatifFromBase (env : Env) (enabled_inclusion enabled_exclusion : List String)
    (cd : CriteriaDsl) (base_count : Int) : Option WhatIfResult :=
  match runInclusions env enabled_inclusion base_count base_count cd.inclusion with
  | none => none
  | some (afterInc, incSteps) =>
    match runExclusions env enabled_exclusion base_count afterInc cd.exclusion with
    | none => none
    | some (finalCount, excSteps) =>
      some { base_count := base_count
             final_count := finalCount
             steps := incSteps ++ excSteps }

/-- FunnelService.calculate_whatif: obtain the base population count (500 on
query failure), then process enabled inclusion criteria and enabled exclusion
criteria in document order.  none models an uncaught exception. -/
def calculate_whatif (env : Env) (enabled_inclusion enabled_exclusion : List String)
    (cd : CriteriaDsl) : Option WhatIfResult :=
  match whatifBaseCount env with
  | none => none
  | some b => whatifFromBase env enabled_inclusion enabled_exclusion cd b

/-- One row of the calculate_funnel display list. -/
structure FunnelRow where
  step : String
  count : Int
  pct : ℚ
deriving DecidableEq

/-- Python round(x, 1).  (Python rounds floats half-to-even; this rational
model rounds half away from the lower value.  No claim depends on behaviour
at exact halves.) -/
def pyRound1 (q : ℚ) : ℚ := ((round (10 * q) : ℤ) : ℚ) / 10

/-- Percentage computation of calculate_funnel: count / base_count * 100
rounded to one decimal.  The Python code divides with no zero guard here, so
base_count = 0 is an uncaught ZeroDivisionError (none). -/
def funnelPct (count base_count : Int) : Option ℚ :=
  if base_count = 0 then none
  else some (pyRound1 ((count : ℚ) / (base_count : ℚ) * 100))

/-- FunnelService.calculate_funnel: base population row, optional age row
when some inclusion criterion has the demographic domain, optional diagnosis
row for the diagnosis domain, and a final cohort row from the given execution
result.  The age and diagnosis branches index preview_rows[0]["cnt"] after
checking only ok (an ok result with zero rows is an uncaught IndexError); a
failed execution result has no execution_summary key (KeyError). -/
def calculate_funnel (env : Env) (cd : CriteriaDsl) (exec_result : RunResult) :
    Option (List FunnelRow) :=
  match whatifBaseCount env with
  | none => none
  | some base_count =>
    let ageRows : Option (List FunnelRow) :=
      if cd.inclusion.any (fun p => p.domain = "demographic") then
        match run_sql age_filter_sql "preview" (env age_filter_sql) with
        | .okRes _ rows _ =>
          match rows.head?.bind (fun r => lookupKey r "cnt") with
          | none => none
          | some c =>
            (funnelPct c base_count).map (fun p =>
              [{ step := "Age Filter (18-75)", count := c, pct := p }])
        | .errRes _ _ => some []
      else some []
    let dxRows : Option (List FunnelRow) :=
      if cd.inclusion.any (fun p => p.domain = "diagnosis") then
        match run_sql funnel_dx_sql "preview" (env funnel_dx_sql) with
        | .okRes _ rows _ =>
          match rows.head?.bind (fun r => lookupKey r "cnt") with
          | none => none
          | some c =>
            (funnelPct c base_count).map (fun p =>
              [{ step := "Type 2 Diabetes", count := c, pct := p }])
        | .errRes _ _ => some []
      else some []
    let finalRow : Option FunnelRow :=
      match exec_result with
      | .okRes n _ _ =>
        (funnelPct (n : Int) base_count).map (fun p =>
          { step := "Final Cohort", count := (n : Int), pct := p })
      | .errRes _ _ => none
    match ageRows, dxRows, finalRow with
    | some a, some d, some f =>
      some (({ step := "Base Population", count := base_count, pct := 100 } :
        FunnelRow) :: (a ++ d ++ [f]))
    | _, _, _ => none

/-- C7: the funnel obtains baseCount by running the base-population count
query SELECT COUNT(*) as cnt FROM patients; whenever that execution reports
ok=false, baseCount falls back to the fixed default 500 and calculate_whatif
proceeds as the same computation run from base 500 rather than hard-failing
on the base-population query error. -/
theorem whatif_base_fallback (env : Env) (ei ee : List String)
    (cd : CriteriaDsl)
    (h : (run_sql base_population_sql "preview" (env base_population_sql)).isOk
      = false) :
    whatifBaseCount env = some 500 ∧
    calculate_whatif env ei ee cd = whatifFromBase env ei ee cd 500 := by
  have h5 : whatifBaseCount env = some 500 := by
    cases hr : run_sql base_population_sql "preview" (env base_population_sql) with
    | okRes n rows w => rw [hr] at h; simp [RunResult.isOk] at h
    | errRes e t => simp [whatifBaseCount, hr]
  exact ⟨h5, by simp [calculate_whatif, h5]⟩

theorem whatif_base_fallback_witness :
    whatifBaseCount (fun _ => .operationalError "no such table: patients")
      = some 500 :=
  (whatif_base_fallback (fun _ => .operationalError "no such table: patients")
    [] [] ⟨[], []⟩ (by decide)).1

/-- C10: on the base-population path both calculate_whatif and
calculate_funnel index preview_rows[0] whenever the base-count query reports
ok=true, with no emptiness check: a base query that succeeds with zero rows
makes both raise an uncaught IndexError (modelled as none) instead of
returning a result — the 500 fallback applies only to ok=false. -/
theorem base_count_empty_success_raises (env : Env) (ei ee : List String)
    (cd : CriteriaDsl) (er : RunResult) (cols : List String)
    (h : env base_population_sql = .success cols []) :
    calculate_whatif env ei ee cd = none ∧ calculate_funnel env cd er = none := by
  have hb : whatifBaseCount env = none := by
    have hs : containsDestructive base_population_sql = false := by decide
    simp [whatifBaseCount, h, run_sql, find_destructive_none hs]
  exact ⟨by simp [calculate_whatif, hb], by simp [calculate_funnel, hb]⟩

theorem base_count_empty_success_raises_witness :
    calculate_whatif (fun _ => .success ["cnt"] []) [] [] ⟨[], []⟩ = none :=
  (base_count_empty_success_raises (fun _ => .success ["cnt"] []) [] [] ⟨[], []⟩
    (.okRes 0 [] []) ["cnt"] rfl).1

theorem run_sql_preview_okRes {s : String} {db : DbOutcome} {n : Nat}
    {rows : List Row} {w : List String}
    (h : run_sql s "preview" db = .okRes n rows w) :
    ∃ cols rws, db = .success cols rws ∧
      rows = (rws.take 10).map (rowToDict cols) := by
  unfold run_sql at h
  split at h
  · cases h
  · split at h
    case _ cols rws =>
      rw [if_neg (by decide), if_pos rfl] at h
      cases h
      exact ⟨cols, rws, rfl, rfl⟩
    case _ m => cases h
    case _ m => cases h
    case _ m => cases h

/-- All row values a database outcome can hand back are nonnegative (true of
every COUNT query a real sqlite database answers). -/
def DbOutcome.nonnegCounts : DbOutcome → Prop
  | .success _ rows => ∀ r ∈ rows, ∀ v ∈ r, 0 ≤ v
  | _ => True

/-- The environment only ever hands back nonnegative values. -/
def envNonnegCounts (env : Env) : Prop := ∀ s, (env s).nonnegCounts

theorem cnt_nonneg_of_env {env : Env} (hnn : envNonnegCounts env) {s : String}
    {n : Nat} {rows : List Row} {w : List String} {row : Row} {v : Int}
    (hrun : run_sql s "preview" (env s) = .okRes n rows w)
    (hrow : row ∈ rows) (hcnt : lookupKey row "cnt" = some v) : 0 ≤ v := by
  obtain ⟨cols, rws, henv, hrows⟩ := run_sql_preview_okRes hrun
  subst hrows
  obtain ⟨r0, hr0, rfl⟩ := List.mem_map.mp hrow
  unfold lookupKey at hcnt
  obtain ⟨p, hp, hpv⟩ := Option.map_eq_some'.mp hcnt
  have hpmem : p ∈ rowToDict cols r0 := List.mem_of_find?_eq_some hp
  have hv2 : p.2 ∈ r0 := by
    have h3 : (p.1, p.2) ∈ cols.zip r0 := by simpa [rowToDict] using hpmem
    exact (List.of_mem_zip h3).2
  have hr0m : r0 ∈ rws := List.take_subset 10 rws hr0
  have hmain := hnn s
  rw [henv] at hmain
  have hball : ∀ r ∈ rws, ∀ w2 ∈ r, 0 ≤ w2 := hmain
  have := hball r0 hr0m p.2 hv2
  omega

/-- Chain invariant on an emitted step list, threaded from the running count
cur: each inclusion step has a nonnegative count; each exclusion step has a
nonnegative drop_count and count = cur - drop_count; the running count after
any emitted step is the step's own count. -/
def goodChain : Int → List FunnelStep → Prop
  | _, [] => True
  | cur, s :: rest =>
    ((s.type = "inclusion" ∧ 0 ≤ s.count) ∨
     (s.type = "exclusion" ∧ 0 ≤ s.drop_count ∧ s.count = cur - s.drop_count)) ∧
    goodChain s.count rest

/-- The running count at the end of an emitted chain. -/
def chainEnd : Int → List FunnelStep → Int
  | cur, [] => cur
  | _, s :: rest => chainEnd s.count rest

theorem goodChain_append {a b : List FunnelStep} {cur : Int}
    (ha : goodChain cur a) (hb : goodChain (chainEnd cur a) b) :
    goodChain cur (a ++ b) := by
  induction a generalizing cur with
  | nil => exact hb
  | cons s t ih => exact ⟨ha.1, ih ha.2 hb⟩

theorem runInclusions_goodChain {env : Env} (hnn : envNonnegCounts env)
    {enabled : List String} {b : Int} {l : List Criterion} :
    ∀ {cur fc : Int} {steps : List FunnelStep},
    runInclusions env enabled b cur l = some (fc, steps) →
    goodChain cur steps ∧ chainEnd cur steps = fc := by
  induction l with
  | nil =>
    intro cur fc steps h
    simp only [runInclusions, Option.some.injEq, Prod.mk.injEq] at h
    obtain ⟨rfl, rfl⟩ := h
    exact ⟨trivial, rfl⟩
  | cons c rest ih =>
    intro cur fc steps h
    rw [runInclusions] at h
    split at h
    · split at h
      case _ n rows w hrun =>
        split at h
        case _ row hhd =>
          split at h
          case _ nc hcnt =>
            split at h
            case _ fc2 steps2 hrec =>
              simp only [Option.some.injEq, Prod.mk.injEq] at h
              obtain ⟨rfl, rfl⟩ := h
              obtain ⟨hg, he⟩ := ih hrec
              have hnc : 0 ≤ nc :=
                cnt_nonneg_of_env hnn hrun (List.mem_of_mem_head? hhd) hcnt
              exact ⟨⟨Or.inl ⟨rfl, hnc⟩, hg⟩, he⟩
            case _ hrec => cases h
          case _ hcnt => cases h
        case _ hhd => exact ih h
      case _ e t hrun => exact ih h
    · exact ih h

theorem runExclusions_goodChain {env : Env} (hnn : envNonnegCounts env)
    {enabled : List String} {b : Int} {l : List Criterion} :
    ∀ {cur fc : Int} {steps : List FunnelStep},
    runExclusions env enabled b cur l = some (fc, steps) →
    goodChain cur steps ∧ chainEnd cur steps = fc := by
  induction l with
  | nil =>
    intro cur fc steps h
    simp only [runExclusions, Option.some.injEq, Prod.mk.injEq] at h
    obtain ⟨rfl, rfl⟩ := h
    exact ⟨trivial, rfl⟩
  | cons c rest ih =>
    intro cur fc steps h
    rw [runExclusions] at h
    split at h
    · split at h
      case _ n rows w hrun =>
        split at h
        case _ row hhd =>
          split at h
          case _ exc hcnt =>
            split at h
            case _ fc2 steps2 hrec =>
              simp only [Option.some.injEq, Prod.mk.injEq] at h
              obtain ⟨rfl, rfl⟩ := h
              obtain ⟨hg, he⟩ := ih hrec
              have hexc : 0 ≤ exc :=
                cnt_nonneg_of_env hnn hrun (List.mem_of_mem_head? hhd) hcnt
              exact ⟨⟨Or.inr ⟨rfl, hexc, rfl⟩, hg⟩, he⟩
            case _ hrec => cases h
          case _ hcnt => cases h
        case _ hhd => exact ih h
      case _ e t hrun => exact ih h
    · exact ih h

theorem whatif_goodChain {env : Env} (hnn : envNonnegCounts env)
    {ei ee : List String} {cd : CriteriaDsl} {r : WhatIfResult}
    (h : calculate_whatif env ei ee cd = some r) :
    goodChain r.base_count r.steps := by
  unfold calculate_whatif at h
  split at h
  · cases h
  case _ b hb =>
    unfold whatifFromBase at h
    split at h
    · cases h
    case _ afterInc incSteps hi =>
      split at h
      · cases h
      case _ fc excSteps he =>
        cases h
        obtain ⟨hg1, hend1⟩ := runInclusions_goodChain hnn hi
        obtain ⟨hg2, _⟩ := runExclusions_goodChain hnn he
        exact goodChain_append hg1 (by rw [hend1]; exact hg2)

/-- An enabled demographic criterion. -/
def cAge : Criterion := ⟨"inc_age", "demographic", "age 18 to 75", "Age 18 to 75"⟩

/-- An enabled criterion matching no dispatch rule (domain lab). -/
def cLab : Criterion := ⟨"inc_lab", "lab", "unknown marker", "Lab marker"⟩

/-- An enabled drug criterion. -/
def cMet : Criterion := ⟨"inc_met", "drug", "metformin", "On metformin"⟩

/-- An enabled heart-failure exclusion criterion. -/
def cHf : Criterion := ⟨"exc_hf", "diagnosis", "heart failure", "Heart failure"⟩

/-- A database with 500 patients, 420 of them aged 18-75: the base query and
the age query answer accordingly, and the constant default query
SELECT 500 as cnt answers 500 as sqlite itself would. -/
def envMono : Env := fun s =>
  if s = base_population_sql then .success ["cnt"] [[500]]
  else if s = age_filter_sql then .success ["cnt"] [[420]]
  else if s = "SELECT 500 as cnt" then .success ["cnt"] [[500]]
  else .otherError "unexpected query"

/-- C2 counterexample: with a 500-patient base, an enabled demographic
criterion filtering to 420 followed by an enabled criterion matching no
dispatch rule, the default SELECT (baseCount) as cnt query resets the running
count from 420 back up to 500, so the count after the second emitted step
exceeds the running count before it: the funnel is not monotone. -/
theorem whatif_monotonicity_counterexample :
    (calculate_whatif envMono ["inc_age", "inc_lab"] [] ⟨[cAge, cLab], []⟩).map
        (fun r => r.steps.map (fun s => s.count)) = some [420, 500] ∧
    ¬ ((500 : Int) ≤ 420) :=
  ⟨by decide, by decide⟩

/-- Non-increase of the running count across every exclusion step of an
emitted chain, threading the running count through the steps. -/
def exclStepsNonincreasing : Int → List FunnelStep → Prop
  | _, [] => True
  | cur, s :: rest =>
    (s.type = "exclusion" → s.count ≤ cur) ∧ exclStepsNonincreasing s.count rest

theorem goodChain_exclNonincreasing {cur : Int} {l : List FunnelStep}
    (h : goodChain cur l) : exclStepsNonincreasing cur l := by
  induction l generalizing cur with
  | nil => trivial
  | cons s rest ih =>
    obtain ⟨h1, h2⟩ := h
    refine ⟨?_, ih h2⟩
    intro ht
    rcases h1 with ⟨hi, _⟩ | ⟨_, hd, hc⟩
    · exact absurd (hi.symm.trans ht) (by decide)
    · omega

/-- C2 amended: the funnel is monotone only across exclusion steps — given
that the database hands back nonnegative counts, every exclusion step's count
is at most the running count before that step (new count = current minus a
nonnegative excluded count).  Inclusion steps need not decrease the running
count, because every inclusion count query is evaluated against the whole
database rather than the current cohort; in particular the default
SELECT (baseCount) as cnt rule resets the running count to baseCount. -/
theorem whatif_exclusion_monotonic (env : Env) (ei ee : List String)
    (cd : CriteriaDsl) (r : WhatIfResult) (hnn : envNonnegCounts env)
    (h : calculate_whatif env ei ee cd = some r) :
    exclStepsNonincreasing r.base_count r.steps :=
  goodChain_exclNonincreasing (whatif_goodChain hnn h)

/-- A database where 50 of the 500 patients take metformin but 80 patients in
the whole claims table have heart failure: the exclusion overshoots the
current cohort. -/
def envOvershoot : Env := fun s =>
  if s = base_population_sql then .success ["cnt"] [[500]]
  else if s = metformin_sql then .success ["cnt"] [[50]]
  else if s = heart_failure_sql then .success ["cnt"] [[80]]
  else .otherError "unexpected query"

theorem envOvershoot_nonneg : envNonnegCounts envOvershoot := by
  intro s
  unfold envOvershoot
  split_ifs <;> simp [DbOutcome.nonnegCounts]

/-- The metformin inclusion step emitted under envOvershoot (50 of 500
patients, so percentage 10, drop 450). -/
def stepMet : FunnelStep := mkInclusionStep 500 500 50 cMet

/-- The heart-failure exclusion step emitted under envOvershoot: 80 excluded
from a running count of 50, so count -30 and percentage -6. -/
def stepHf : FunnelStep := mkExclusionStep 500 50 80 cHf

/-- The full what-if result under envOvershoot. -/
def rOvershoot : WhatIfResult := ⟨500, -30, [stepMet, stepHf]⟩

/-- The what-if result under envOvershoot with only the metformin criterion
enabled. -/
def rMetOnly : WhatIfResult := ⟨500, 50, [stepMet]⟩

set_option maxRecDepth 8000 in
theorem whatif_exclusion_monotonic_witness :
    exclStepsNonincreasing rOvershoot.base_count rOvershoot.steps :=
  whatif_exclusion_monotonic envOvershoot ["inc_met"] ["exc_hf"]
    ⟨[cMet], [cHf]⟩ rOvershoot envOvershoot_nonneg (by rfl)

set_option maxRecDepth 8000 in
/-- C8 counterexample: the exclusion query counts matches over the whole
claims table rather than within the current cohort, so with 50 patients left
and 80 heart-failure patients in the database the emitted exclusion step has
count 50 - 80 = -30, a negative count. -/
theorem whatif_step_count_negative_counterexample :
    (calculate_whatif envOvershoot ["inc_met"] ["exc_hf"] ⟨[cMet], [cHf]⟩).map
        (fun r => r.steps.map (fun s => s.count)) = some [50, -30] ∧
    ((-30 : Int) < 0) :=
  ⟨by decide, by decide⟩

theorem goodChain_mem {cur : Int} {l : List FunnelStep} (h : goodChain cur l) :
    ∀ s ∈ l, (s.type = "inclusion" → 0 ≤ s.count) ∧
      (s.type = "exclusion" → 0 ≤ s.drop_count) := by
  induction l generalizing cur with
  | nil => intro s hs; cases hs
  | cons a rest ih =>
    intro s hs
    obtain ⟨h1, h2⟩ := h
    rcases List.mem_cons.mp hs with rfl | hs2
    · rcases h1 with ⟨hi, hc⟩ | ⟨he, hd, _⟩
      · exact ⟨fun _ => hc, fun ht => absurd (hi.symm.trans ht) (by decide)⟩
      · exact ⟨fun ht => absurd (he.symm.trans ht) (by decide), fun _ => hd⟩
    · exact ih h2 s hs2

/-- C8 amended: when the database hands back nonnegative counts, every
inclusion step emitted by calculate_whatif has a nonnegative count, and every
exclusion step has a nonnegative drop_count — but an exclusion step's count,
computed as currentCount minus the excluded count returned by the exclusion
query, can be negative, because the exclusion query counts matches over the
whole database rather than within the current cohort. -/
theorem whatif_step_sign_structure (env : Env) (ei ee : List String)
    (cd : CriteriaDsl) (r : WhatIfResult) (hnn : envNonnegCounts env)
    (h : calculate_whatif env ei ee cd = some r) :
    ∀ s ∈ r.steps, (s.type = "inclusion" → 0 ≤ s.count) ∧
      (s.type = "exclusion" → 0 ≤ s.drop_count) :=
  goodChain_mem (whatif_goodChain hnn h)

set_option maxRecDepth 8000 in
theorem whatif_step_sign_structure_witness :
    (stepMet.type = "inclusion" → 0 ≤ stepMet.count) ∧
    (stepMet.type = "exclusion" → 0 ≤ stepMet.drop_count) :=
  whatif_step_sign_structure envOvershoot ["inc_met"] [] ⟨[cMet], []⟩ rMetOnly
    envOvershoot_nonneg (by rfl) stepMet (List.mem_singleton.mpr rfl)

set_option maxRecDepth 8000 in
/-- C6 counterexample: the heart-failure exclusion step emitted under
envOvershoot has percentage (50 - 80) / 500 * 100 = -6, outside the claimed
range 0 to 100. -/
theorem whatif_percentage_range_counterexample :
    (calculate_whatif envOvershoot ["inc_met"] ["exc_hf"] ⟨[cMet], [cHf]⟩).map
        (fun r => r.steps.map (fun s => s.percentage))
      = some [stepMet.percentage, stepHf.percentage] ∧
    stepHf.percentage = -6 ∧ ¬ ((0 : ℚ) ≤ stepHf.percentage) := by
  refine ⟨by rfl, ?_, ?_⟩ <;> norm_num [stepHf, mkExclusionStep]

theorem runInclusions_pct {env : Env} {enabled : List String} {b : Int}
    {l : List Criterion} :
    ∀ {cur fc : Int} {steps : List FunnelStep},
    runInclusions env enabled b cur l = some (fc, steps) →
    ∀ s ∈ steps, s.percentage =
      if b > 0 then (s.count : ℚ) / (b : ℚ) * 100 else 0 := by
  induction l with
  | nil =>
    intro cur fc steps h
    simp only [runInclusions, Option.some.injEq, Prod.mk.injEq] at h
    obtain ⟨rfl, rfl⟩ := h
    intro s hs; cases hs
  | cons c rest ih =>
    intro cur fc steps h
    rw [runInclusions] at h
    split at h
    · split at h
      case _ n rows w hrun =>
        split at h
        case _ row hhd =>
          split at h
          case _ nc hcnt =>
            split at h
            case _ fc2 steps2 hrec =>
              simp only [Option.some.injEq, Prod.mk.injEq] at h
              obtain ⟨rfl, rfl⟩ := h
              intro s hs
              rcases List.mem_cons.mp hs with rfl | hs2
              · rfl
              · exact ih hrec s hs2
            case _ hrec => cases h
          case _ hcnt => cases h
        case _ hhd => exact ih h
      case _ e t hrun => exact ih h
    · exact ih h

theorem runExclusions_pct {env : Env} {enabled : List String} {b : Int}
    {l : List Criterion} :
    ∀ {cur fc : Int} {steps : List FunnelStep},
    runExclusions env enabled b cur l = some (fc, steps) →
    ∀ s ∈ steps, s.percentage =
      if b > 0 then (s.count : ℚ) / (b : ℚ) * 100 else 0 := by
  induction l with
  | nil =>
    intro cur fc steps h
    simp only [runExclusions, Option.some.injEq, Prod.mk.injEq] at h
    obtain ⟨rfl, rfl⟩ := h
    intro s hs; cases hs
  | cons c rest ih =>
    intro cur fc steps h
    rw [runExclusions] at h
    split at h
    · split at h
      case _ n rows w hrun =>
        split at h
        case _ row hhd =>
          split at h
          case _ exc hcnt =>
            split at h
            case _ fc2 steps2 hrec =>
              simp only [Option.some.injEq, Prod.mk.injEq] at h
              obtain ⟨rfl, rfl⟩ := h
              intro s hs
              rcases List.mem_cons.mp hs with rfl | hs2
              · rfl
              · exact ih hrec s hs2
            case _ hrec => cases h
          case _ hcnt => cases h
        case _ hhd => exact ih h
      case _ e t hrun => exact ih h
    · exact ih h

/-- C6 amended: every emitted step's percentage equals step.count divided by
baseCount times 100 when baseCount > 0 and is 0 when baseCount is not
positive (exact in rational arithmetic), and the denominator is always the
base population captured once at the start of the run, never the moving
cohort count.  The claimed range 0 to 100 does not hold: an exclusion step
whose excluded count exceeds the current cohort has a negative percentage. -/
theorem whatif_percentage_formula (env : Env) (ei ee : List String)
    (cd : CriteriaDsl) (r : WhatIfResult)
    (h : calculate_whatif env ei ee cd = some r) :
    ∀ s ∈ r.steps, s.percentage =
      if r.base_count > 0 then (s.count : ℚ) / (r.base_count : ℚ) * 100
      else 0 := by
  unfold calculate_whatif at h
  split at h
  · cases h
  case _ b hb =>
    unfold whatifFromBase at h
    split at h
    · cases h
    case _ afterInc incSteps hi =>
      split at h
      · cases h
      case _ fc excSteps he =>
        cases h
        intro s hs
        rcases List.mem_append.mp hs with h2 | h2
        · exact runInclusions_pct hi s h2
        · exact runExclusions_pct he s h2

set_option maxRecDepth 8000 in
theorem whatif_percentage_formula_witness :
    stepMet.percentage =
      if rMetOnly.base_count > 0 then
        (stepMet.count : ℚ) / (rMetOnly.base_count : ℚ) * 100
      else 0 :=
  whatif_percentage_formula envOvershoot ["inc_met"] [] ⟨[cMet], []⟩ rMetOnly
    (by rfl) stepMet (List.mem_singleton.mpr rfl)

/-- One dispatch rule of the criterion-to-SQL compiler viewed as an ordered
rule table: a predicate on the criterion and the SQL template it selects. -/
structure DispatchRule where
  applies : Criterion → Bool
  sql : String

/-- Ordered rule-table dispatch: the first rule whose predicate holds wins,
with an explicit default. -/
def firstMatch (rules : List DispatchRule) (dflt : String) (c : Criterion) :
    String :=
  match rules.find? (fun r => r.applies c) with
  | some r => r.sql
  | none => dflt

/-- The inclusion rule table realized by _build_criterion_sql: the diagnosis
rule fires on the diagnosis domain or either of the keywords diabetes and
type 2. -/
def inclusionRules : List DispatchRule :=
  [ ⟨fun c => pyLower c.domain = "demographic" ||
        strContains (pyLower c.concept) "age", age_filter_sql⟩,
    ⟨fun c => pyLower c.domain = "diagnosis" ||
        strContains (pyLower c.concept) "diabetes" ||
        strContains (pyLower c.concept) "type 2", diabetes_sql⟩,
    ⟨fun c => pyLower c.domain = "drug" ||
        strContains (pyLower c.concept) "metformin", metformin_sql⟩ ]

/-- The exclusion rule table realized by _build_exclusion_sql. -/
def exclusionRules : List DispatchRule :=
  [ ⟨fun c => strContains (pyLower c.concept) "heart failure" ||
        strContains (pyLower c.concept) "heart", heart_failure_sql⟩,
    ⟨fun c => strContains (pyLower c.concept) "cancer", cancer_sql⟩ ]

/-- The inclusion dispatch exactly as the claim words it: demographic domain
or age keyword, then diagnosis domain or the diabetes keyword, then drug
domain or metformin keyword, otherwise the default. -/
def claimedInclusionRules : List DispatchRule :=
  [ ⟨fun c => pyLower c.domain = "demographic" ||
        strContains (pyLower c.concept) "age", age_filter_sql⟩,
    ⟨fun c => pyLower c.domain = "diagnosis" ||
        strContains (pyLower c.concept) "diabetes", diabetes_sql⟩,
    ⟨fun c => pyLower c.domain = "drug" ||
        strContains (pyLower c.concept) "metformin", metformin_sql⟩ ]

/-- C5 counterexample: a criterion with domain lab and concept type 2
contains no diabetes keyword, so the dispatch described by the claim falls
through to the default SELECT 500 as cnt — but the code also fires its
diagnosis rule on the keyword type 2 and emits the E11 diabetes count
query. -/
theorem build_criterion_sql_counterexample :
    build_criterion_sql ⟨"i1", "lab", "type 2", "desc"⟩ 500 = diabetes_sql ∧
    firstMatch claimedInclusionRules "SELECT 500 as cnt"
        ⟨"i1", "lab", "type 2", "desc"⟩ = "SELECT 500 as cnt" ∧
    diabetes_sql ≠ "SELECT 500 as cnt" :=
  ⟨by decide, by decide, by decide⟩

/-- C5 amended: the compiler dispatches on domain and lower-cased concept
text as an ordered rule table, first match wins: for inclusion,
demographic-domain-or-age-keyword yields the age BETWEEN 18 AND 75 count
query, then diagnosis-domain-or-a-diabetes-keyword — where the diabetes
keyword set is diabetes or type 2 — yields the ICD-10 E11 count query, then
drug-domain-or-metformin-keyword yields the Metformin count query, otherwise
the default SELECT (baseCount) as cnt; for exclusion, heart-keyword yields
the ICD-10 I50 count, cancer-keyword yields the ICD-10 C count, otherwise
SELECT 0 as cnt. -/
theorem dispatch_first_match (c : Criterion) (base_count current_count : Int) :
    build_criterion_sql c base_count =
      firstMatch inclusionRules ("SELECT " ++ toString base_count ++ " as cnt") c ∧
    build_exclusion_sql c current_count =
      firstMatch exclusionRules "SELECT 0 as cnt" c := by
  constructor
  · cases h1 : (decide (pyLower c.domain = "demographic") ||
        strContains (pyLower c.concept) "age") with
    | true => simp [build_criterion_sql, firstMatch, inclusionRules, List.find?, h1]
    | false =>
      cases h2 : (decide (pyLower c.domain = "diagnosis") ||
          strContains (pyLower c.concept) "diabetes" ||
          strContains (pyLower c.concept) "type 2") with
      | true =>
        simp [build_criterion_sql, firstMatch, inclusionRules, List.find?, h1, h2]
      | false =>
        cases h3 : (decide (pyLower c.domain = "drug") ||
            strContains (pyLower c.concept) "metformin") with
        | true =>
          simp [build_criterion_sql, firstMatch, inclusionRules, List.find?,
            h1, h2, h3]
        | false =>
          simp [build_criterion_sql, firstMatch, inclusionRules, List.find?,
            h1, h2, h3]
  · cases h1 : (strContains (pyLower c.concept) "heart failure" ||
        strContains (pyLower c.concept) "heart") with
    | true => simp [build_exclusion_sql, firstMatch, exclusionRules, List.find?, h1]
    | false =>
      cases h2 : (strContains (pyLower c.concept) "cancer") with
      | true =>
        simp [build_exclusion_sql, firstMatch, exclusionRules, List.find?, h1, h2]
      | false =>
        simp [build_exclusion_sql, firstMatch, exclusionRules, List.find?, h1, h2]

/-- Python str.startswith. -/
def strStartsWith (s pre : String) : Bool := pre.toList.isPrefixOf s.toList

/-- A row of the ref_icd10 reference table. -/
structure IcdRow where
  icd_10_code : String
  description : String
deriving DecidableEq

/-- A row of the ref_cpt reference table. -/
structure CptRow where
  cpt_code : String
  description : String
deriving DecidableEq

/-- A row of the ref_ndc reference table; drug_cls models the drug_class
column. -/
structure NdcRow where
  ndc_code : String
  drug_name : String
  drug_cls : String
deriving DecidableEq

/-- The two claims columns read by the supplemental scan; the code column is
nullable. -/
structure ClaimDiagRow where
  primary_diagnosis_code : Option String
  primary_diagnosis_desc : String
deriving DecidableEq

/-- The reference vocabularies plus live claims rows searched by
search_concepts. -/
structure RefDb where
  ref_icd10 : List IcdRow
  ref_cpt : List CptRow
  ref_ndc : List NdcRow
  claims : List ClaimDiagRow
deriving DecidableEq

/-- One scored concept match; drug_name, drug_cls and source model the keys
present only on drug and claims-sourced matches. -/
structure ConceptMatch where
  code : String
  description : String
  code_system : String
  match_score : ℚ
  matching_logic : String
  drug_name : Option String := none
  drug_cls : Option String := none
  source : Option String := none
deriving DecidableEq

/-- ORDER BY description for ICD-10 rows. -/
def byDescription (a b : IcdRow) : Bool := decide (a.description ≤ b.description)

/-- ORDER BY description for CPT rows. -/
def byCptDescription (a b : CptRow) : Bool :=
  decide (a.description ≤ b.description)

/-- ORDER BY drug_name for NDC rows. -/
def byDrugName (a b : NdcRow) : Bool := decide (a.drug_name ≤ b.drug_name)

/-- The ICD-10 vocabulary scan: rows whose lower-cased description contains
the term, enumerated in ORDER BY description order, scored exact 1.0,
starts-with 0.9, otherwise substring 0.7. -/
def icdMatches (db : RefDb) (search_term : String) : List ConceptMatch :=
  ((db.ref_icd10.filter (fun r =>
      strContains (pyLower r.description) search_term)).mergeSort
        byDescription).map
    (fun r =>
      { code := r.icd_10_code
        description := r.description
        code_system := "ICD10CM"
        match_score :=
          if search_term = pyLower r.description then 1
          else if strStartsWith (pyLower r.description) search_term then 9/10
          else 7/10
        matching_logic := "wildcard_supported" })

/-- The CPT vocabulary scan: substring-filtered rows score 0.8 (the else 0.6
branch is unreachable because the filter already requires the substring). -/
def cptMatches (db : RefDb) (search_term : String) : List ConceptMatch :=
  ((db.ref_cpt.filter (fun r =>
      strContains (pyLower r.description) search_term)).mergeSort
        byCptDescription).map
    (fun r =>
      { code := r.cpt_code
        description := r.description
        code_system := "CPT"
        match_score :=
          if strContains (pyLower r.description) search_term then 4/5
          else 3/5
        matching_logic := "exact_only" })

/-- The NDC vocabulary scan: rows matching on name or class, scored 1.0 for
both, 0.9 for name only, 0.7 otherwise (class only, given the filter). -/
def ndcMatches (db : RefDb) (search_term : String) : List ConceptMatch :=
  ((db.ref_ndc.filter (fun r =>
      strContains (pyLower r.drug_name) search_term ||
      strContains (pyLower r.drug_cls) search_term)).mergeSort
        byDrugName).map
    (fun r =>
      { code := r.ndc_code
        description := r.drug_name ++ " (" ++ r.drug_cls ++ ")"
        code_system := "NDC"
        match_score :=
          if strContains (pyLower r.drug_name) search_term &&
              strContains (pyLower r.drug_cls) search_term then 1
          else if strContains (pyLower r.drug_name) search_term then 9/10
          else 7/10
        matching_logic := "ingredient_or_class"
        drug_name := some r.drug_name
        drug_cls := some r.drug_cls })

/-- SELECT DISTINCT over (code, description) pairs, keeping first
occurrences. -/
def dedupPairs (seen : List (String × String)) :
    List (String × String) → List (String × String)
  | [] => []
  | p :: rest =>
    if seen.contains p then dedupPairs seen rest
    else p :: dedupPairs (p :: seen) rest

/-- The supplemental scan of live claims rows: non-null primary diagnosis
codes whose lower-cased description contains the term, DISTINCT, LIMIT 10. -/
def claimsCandidates (db : RefDb) (search_term : String) :
    List (String × String) :=
  (dedupPairs []
    (db.claims.filterMap (fun r =>
      match r.primary_diagnosis_code with
      | some code =>
        if strContains (pyLower r.primary_diagnosis_desc) search_term then
          some (code, r.primary_diagnosis_desc)
        else none
      | none => none))).take 10

/-- The claims-sourced supplemental match record: fixed score 0.6. -/
def claimsMatch (p : String × String) : ConceptMatch :=
  { code := p.1
    description := p.2
    code_system := "ICD10CM"
    match_score := 6/10
    matching_logic := "wildcard_supported"
    source := some "claims_data" }

/-- Append each supplemental candidate whose code is not already present
among the results accumulated so far (the membership check sees earlier
supplemental additions too, as in the Python loop). -/
def addClaimsMatches : List ConceptMatch → List (String × String) →
    List ConceptMatch
  | base, [] => base
  | base, p :: rest =>
    if base.any (fun r => r.code = p.1) then addClaimsMatches base rest
    else addClaimsMatches (base ++ [claimsMatch p]) rest

/-- The final comparator: descending match_score; Python list.sort is stable,
as is mergeSort, so ties keep their enumeration order. -/
def scoreDesc (a b : ConceptMatch) : Bool :=
  decide (b.match_score ≤ a.match_score)

/-- The pre-sort enumeration for a search over all vocabularies: diagnosis,
then procedure, then drug, then the supplemental claims additions. -/
def rawResults (db : RefDb) (search_term : String) : List ConceptMatch :=
  addClaimsMatches
    (icdMatches db search_term ++ cptMatches db search_term ++
      ndcMatches db search_term)
    (claimsCandidates db search_term)

/-- search_concepts from src/src/tools/concept_search.py: lower the term,
scan each vocabulary enabled by the code_system filter, append supplemental
claims matches (only on the diagnosis path), and stable-sort descending by
match_score. -/
def search_concepts (db : RefDb) (term : String)
    (code_system : Option String) : List ConceptMatch :=
  let search_term := pyLower term
  let r1 :=
    if code_system = none ∨ code_system = some "ICD10CM" ∨
        code_system = some "ICD10" then icdMatches db search_term else []
  let r2 := r1 ++
    (if code_system = none ∨ code_system = some "CPT" then
      cptMatches db search_term else [])
  let r3 := r2 ++
    (if code_system = none ∨ code_system = some "NDC" then
      ndcMatches db search_term else [])
  let r4 :=
    if code_system = none ∨ code_system = some "ICD10CM" ∨
        code_system = some "ICD10" then
      addClaimsMatches r3 (claimsCandidates db search_term)
    else r3
  r4.mergeSort scoreDesc

theorem search_concepts_none_eq (db : RefDb) (term : String) :
    search_concepts db term none =
      (rawResults db (pyLower term)).mergeSort scoreDesc := by
  simp [search_concepts, rawResults]

theorem scoreDesc_trans : ∀ a b c : ConceptMatch,
    scoreDesc a b = true → scoreDesc b c = true → scoreDesc a c = true := by
  intro a b c hab hbc
  simp only [scoreDesc, decide_eq_true_eq] at *
  exact le_trans hbc hab

theorem scoreDesc_total : ∀ a b : ConceptMatch,
    (scoreDesc a b || scoreDesc b a) = true := by
  intro a b
  simp only [scoreDesc, Bool.or_eq_true, decide_eq_true_eq]
  exact le_total b.match_score a.match_score

theorem mergeSort_filter_score (l : List ConceptMatch) (q : ℚ) :
    (l.mergeSort scoreDesc).filter (fun m => m.match_score = q)
      = l.filter (fun m => m.match_score = q) := by
  set p : ConceptMatch → Bool := fun m => decide (m.match_score = q) with hp
  have hallp : ∀ m ∈ l.filter p, p m = true := fun m hm => List.of_mem_filter hm
  have hpw : List.Pairwise (fun a b => scoreDesc a b = true) (l.filter p) := by
    apply List.pairwise_of_forall_mem_list
    intro a ha b hb
    have ha2 : a.match_score = q := by simpa [hp] using hallp a ha
    have hb2 : b.match_score = q := by simpa [hp] using hallp b hb
    simp [scoreDesc, ha2, hb2]
  have hB : (l.filter p).Sublist (l.mergeSort scoreDesc) :=
    List.sublist_mergeSort scoreDesc_trans scoreDesc_total hpw (List.filter_sublist l)
  have hBB : (l.filter p).Sublist ((l.mergeSort scoreDesc).filter p) := by
    have h2 := List.Sublist.filter p hB
    rwa [List.filter_eq_self.mpr hallp] at h2
  have hperm : ((l.mergeSort scoreDesc).filter p).Perm (l.filter p) :=
    (List.mergeSort_perm l scoreDesc).filter p
  exact (List.Sublist.eq_of_length hBB hperm.length_eq.symm).symm

theorem icdMatches_score (db : RefDb) (t : String) :
    ∀ m ∈ icdMatches db t, m.code_system = "ICD10CM" ∧
      m.match_score =
        (if t = pyLower m.description then (1 : ℚ)
         else if strStartsWith (pyLower m.description) t then 9/10
         else 7/10) := by
  intro m hm
  simp only [icdMatches, List.mem_map] at hm
  obtain ⟨r, hr, rfl⟩ := hm
  exact ⟨rfl, rfl⟩

theorem ndcMatches_score (db : RefDb) (t : String) :
    ∀ m ∈ ndcMatches db t, m.code_system = "NDC" ∧ ∃ nm cl,
      m.drug_name = some nm ∧ m.drug_cls = some cl ∧
      m.match_score =
        (if strContains (pyLower nm) t && strContains (pyLower cl) t then (1 : ℚ)
         else if strContains (pyLower nm) t then 9/10
         else 7/10) := by
  intro m hm
  simp only [ndcMatches, List.mem_map] at hm
  obtain ⟨r, hr, rfl⟩ := hm
  exact ⟨rfl, r.drug_name, r.drug_cls, rfl, rfl, rfl⟩

theorem addClaimsMatches_split (cands : List (String × String)) :
    ∀ base : List ConceptMatch, ∃ extra,
      addClaimsMatches base cands = base ++ extra ∧
      ∀ m ∈ extra, m.match_score = 6/10 ∧ m.source = some "claims_data" := by
  induction cands with
  | nil =>
    intro base
    exact ⟨[], by simp [addClaimsMatches], by simp⟩
  | cons pr rest ih =>
    intro base
    rw [addClaimsMatches]
    split
    · exact ih base
    · obtain ⟨extra, heq, hprop⟩ := ih (base ++ [claimsMatch pr])
      refine ⟨claimsMatch pr :: extra, by simpa using heq, ?_⟩
      intro m hm
      rcases List.mem_cons.mp hm with rfl | hm2
      · exact ⟨rfl, rfl⟩
      · exact hprop m hm2

/-- C9: for every database and search term, the concept search assigns match
scores by the fixed heuristic — diagnosis: exact case-insensitive equality
1.0, description starts with term 0.9, otherwise substring 0.7, supplemental
claims-sourced matches 0.6; drug: match on both name and class 1.0, name-only
0.9, class-only 0.7 — and the returned sequence is sorted descending by
match_score with ties retaining the per-vocabulary enumeration order
(diagnosis, procedure, drug, supplemental): filtering the output at any score
value reproduces the enumeration-order segment.  A term with no matches
returns the empty sequence rather than an error. -/
theorem search_concepts_spec (db : RefDb) (term : String) :
    (∀ m ∈ icdMatches db (pyLower term), m.code_system = "ICD10CM" ∧
      m.match_score =
        (if pyLower term = pyLower m.description then (1 : ℚ)
         else if strStartsWith (pyLower m.description) (pyLower term) then 9/10
         else 7/10)) ∧
    (∀ m ∈ ndcMatches db (pyLower term), m.code_system = "NDC" ∧ ∃ nm cl,
      m.drug_name = some nm ∧ m.drug_cls = some cl ∧
      m.match_score =
        (if strContains (pyLower nm) (pyLower term) &&
            strContains (pyLower cl) (pyLower term) then (1 : ℚ)
         else if strContains (pyLower nm) (pyLower term) then 9/10
         else 7/10)) ∧
    (∃ extra, rawResults db (pyLower term) =
        icdMatches db (pyLower term) ++ cptMatches db (pyLower term) ++
          ndcMatches db (pyLower term) ++ extra ∧
      ∀ m ∈ extra, m.match_score = 6/10 ∧ m.source = some "claims_data") ∧
    List.Pairwise (fun a b => b.match_score ≤ a.match_score)
      (search_concepts db term none) ∧
    (∀ q : ℚ, (search_concepts db term none).filter (fun m => m.match_score = q)
      = (rawResults db (pyLower term)).filter (fun m => m.match_score = q)) ∧
    (rawResults db (pyLower term) = [] → search_concepts db term none = []) := by
  refine ⟨icdMatches_score db (pyLower term), ndcMatches_score db (pyLower term),
    ?_, ?_, ?_, ?_⟩
  · obtain ⟨extra, heq, hprop⟩ :=
      addClaimsMatches_split (claimsCandidates db (pyLower term))
        (icdMatches db (pyLower term) ++ cptMatches db (pyLower term) ++
          ndcMatches db (pyLower term))
    exact ⟨extra, by simpa [rawResults, List.append_assoc] using heq, hprop⟩
  · rw [search_concepts_none_eq]
    exact (List.sorted_mergeSort scoreDesc_trans scoreDesc_total
      (rawResults db (pyLower term))).imp
      (fun h => by simpa [scoreDesc, decide_eq_true_eq] using h)
  · intro q
    rw [search_concepts_none_eq]
    exact mergeSort_filter_score (rawResults db (pyLower term)) q
  · intro h
    rw [search_concepts_none_eq, h, List.mergeSort_nil]
